import Mathlib

/-!
Shallow embedding of `src/aws_manager.py` (class `AWSManager` and the
`run_choice` menu dispatcher).

The cloud provider (the three boto3 clients held by `AWSManager`) is modelled
by a `Provider` structure: the responses the describe calls would return, and
for every mutating call whether it raises and which error.  Each Python method
becomes a Lean function from a `Provider` to a `Trace` (the list of API calls
issued, in order, and the list of log lines emitted, in order) together with
an `Option PyError`: `none` when the method returns normally, `some e` when
the Python method lets exception `e` escape to its caller.
-/

/-- A tag on a compute instance: a Key/Value pair (boto3 tag dict). -/
structure Tag where
  key : String
  value : String
deriving DecidableEq, Repr

/-- One entry of the `Instances` list of a reservation in the
`describe_instances` response. -/
structure Ec2Instance where
  instanceId : String
  instanceType : String
  stateName : String
  tags : List Tag
deriving DecidableEq, Repr

/-- One entry of the `Reservations` list of the `describe_instances`
response. -/
structure Reservation where
  instances : List Ec2Instance
deriving DecidableEq, Repr

/-- One entry of the `DBInstances` list of the `describe_db_instances`
response. -/
structure DbInstance where
  dbInstanceIdentifier : String
  dbInstanceClass : String
  dbInstanceStatus : String
deriving DecidableEq, Repr

/-- One entry of the `AutoScalingGroups` list of the
`describe_auto_scaling_groups` response. -/
structure Asg where
  autoScalingGroupName : String
  minSize : Int
  maxSize : Int
  desiredCapacity : Int
deriving DecidableEq, Repr

/-- A Python exception as the code distinguishes them: `clientError code msg`
is a `botocore.exceptions.ClientError` whose `response["Error"]["Code"]` is
`code` and whose rendered message is `msg`; `exn msg` is any other exception
with rendered message `msg`. -/
inductive PyError where
  | clientError (code : String) (msg : String)
  | exn (msg : String)
deriving DecidableEq, Repr

/-- The rendered message of an exception, what `str(e)` gives the logger. -/
def PyError.render : PyError → String
  | .clientError _ m => m
  | .exn m => m

/-- One call to a provider client, as issued by the code. -/
inductive AwsCall where
  | describeInstances
  | startInstances (ids : List String)
  | stopInstances (ids : List String)
  | describeDbInstances
  | startDbInstance (id : String)
  | stopDbInstance (id : String)
  | describeAutoScalingGroups
  | updateAutoScalingGroup (name : String) (minSize maxSize desired : Int)
deriving DecidableEq, Repr

/-- Whether a call mutates provider state (anything but a describe). -/
def AwsCall.isMutating : AwsCall → Bool
  | .describeInstances => false
  | .describeDbInstances => false
  | .describeAutoScalingGroups => false
  | _ => true

/-- One line emitted through the injected logger. -/
inductive LogEntry where
  | info (msg : String)
  | error (msg : String)
deriving DecidableEq, Repr

/-- What a method did: the provider calls it issued and the log lines it
emitted, both in order. -/
structure Trace where
  calls : List AwsCall
  logs : List LogEntry
deriving DecidableEq, Repr

/-- Sequential composition of two trace fragments. -/
def Trace.append (a b : Trace) : Trace :=
  ⟨a.calls ++ b.calls, a.logs ++ b.logs⟩

/-- The behavior of the cloud provider for one run: the describe responses,
and for each mutating call whether it raises.  `none` for an error field
means the call succeeds. -/
structure Provider where
  describeInstancesErr : Option PyError := none
  reservations : List Reservation := []
  startInstancesErr : String → Option PyError := fun _ => none
  stopInstancesErr : String → Option PyError := fun _ => none
  describeDbErr : Option PyError := none
  dbInstances : List DbInstance := []
  startDbErr : String → Option PyError := fun _ => none
  stopDbErr : String → Option PyError := fun _ => none
  describeAsgErr : Option PyError := none
  autoScalingGroups : List Asg := []
  updateAsgErr : String → Option PyError := fun _ => none

/-- The instances enumerated by the nested
`for reservation in response["Reservations"]: for instance in
reservation["Instances"]` loops, flattened in iteration order. -/
def enumInstances (p : Provider) : List Ec2Instance :=
  (p.reservations.map Reservation.instances).flatten

/-- `instance["Tags"][0].get("Value") == "true"`: the first tag's value is
the literal string true.  False when it cannot be evaluated (no tags). -/
def firstTagIsTrue (i : Ec2Instance) : Bool :=
  match i.tags with
  | [] => false
  | t :: _ => t.value = "true"

/-- Body of the instance loop of `start_ec2_instances` (lines 26-33): skip an
instance whose first tag value is "true", otherwise call `start_instances`
on it and log; `instance["Tags"][0]` on a tagless instance raises IndexError,
and any raised exception aborts the rest of the loop. -/
def startEc2Go (p : Provider) : List Ec2Instance → Trace × Option PyError
  | [] => (⟨[], []⟩, none)
  | i :: rest =>
    match i.tags with
    | [] => (⟨[], []⟩, some (PyError.exn "list index out of range"))
    | t :: _ =>
      if t.value = "true" then startEc2Go p rest
      else
        match p.startInstancesErr i.instanceId with
        | some e => (⟨[AwsCall.startInstances [i.instanceId]], []⟩, some e)
        | none =>
          let r := startEc2Go p rest
          (⟨AwsCall.startInstances [i.instanceId] :: r.1.calls,
            LogEntry.info ("Started EC2 instance " ++ i.instanceId ++ " (" ++ t.value ++ ")") :: r.1.logs⟩,
           r.2)

/-- `AWSManager.start_ec2_instances` (lines 21-38): describe instances; empty
`Reservations` raises "No EC2 Instance found!"; the whole body is wrapped in
try/except that logs any exception and swallows it. -/
def start_ec2_instances (p : Provider) : Trace × Option PyError :=
  match p.describeInstancesErr with
  | some e => (⟨[AwsCall.describeInstances], [LogEntry.error e.render]⟩, none)
  | none =>
    if p.reservations = [] then
      (⟨[AwsCall.describeInstances], [LogEntry.error "No EC2 Instance found!"]⟩, none)
    else
      let r := startEc2Go p (enumInstances p)
      match r.2 with
      | none => (⟨AwsCall.describeInstances :: r.1.calls, r.1.logs⟩, none)
      | some e =>
        (⟨AwsCall.describeInstances :: r.1.calls, r.1.logs ++ [LogEntry.error e.render]⟩, none)

/-- Body of the instance loop of `stop_ec2_instances` (lines 45-53), the stop
counterpart of `startEc2Go`. -/
def stopEc2Go (p : Provider) : List Ec2Instance → Trace × Option PyError
  | [] => (⟨[], []⟩, none)
  | i :: rest =>
    match i.tags with
    | [] => (⟨[], []⟩, some (PyError.exn "list index out of range"))
    | t :: _ =>
      if t.value = "true" then stopEc2Go p rest
      else
        match p.stopInstancesErr i.instanceId with
        | some e => (⟨[AwsCall.stopInstances [i.instanceId]], []⟩, some e)
        | none =>
          let r := stopEc2Go p rest
          (⟨AwsCall.stopInstances [i.instanceId] :: r.1.calls,
            LogEntry.info ("Stopped EC2 instance " ++ i.instanceId ++ " (" ++ t.value ++ ")") :: r.1.logs⟩,
           r.2)

/-- `AWSManager.stop_ec2_instances` (lines 40-58). -/
def stop_ec2_instances (p : Provider) : Trace × Option PyError :=
  match p.describeInstancesErr with
  | some e => (⟨[AwsCall.describeInstances], [LogEntry.error e.render]⟩, none)
  | none =>
    if p.reservations = [] then
      (⟨[AwsCall.describeInstances], [LogEntry.error "No EC2 instances found!"]⟩, none)
    else
      let r := stopEc2Go p (enumInstances p)
      match r.2 with
      | none => (⟨AwsCall.describeInstances :: r.1.calls, r.1.logs⟩, none)
      | some e =>
        (⟨AwsCall.describeInstances :: r.1.calls, r.1.logs ++ [LogEntry.error e.render]⟩, none)

/-- Body of the DB-instance loop of `start_rds_db` (lines 65-78): each
instance gets a `start_db_instance` call; an `InvalidDBInstanceState`
ClientError is logged per-instance and iteration continues; any other
ClientError is re-raised by the inner handler, and a non-ClientError is not
caught by it, so both abort the loop. -/
def startRdsGo (p : Provider) : List DbInstance → Trace × Option PyError
  | [] => (⟨[], []⟩, none)
  | d :: rest =>
    match p.startDbErr d.dbInstanceIdentifier with
    | none =>
      let r := startRdsGo p rest
      (⟨AwsCall.startDbInstance d.dbInstanceIdentifier :: r.1.calls,
        LogEntry.info ("Started RDS instance " ++ d.dbInstanceIdentifier) :: r.1.logs⟩,
       r.2)
    | some (PyError.clientError code m) =>
      if code = "InvalidDBInstanceState" then
        let r := startRdsGo p rest
        (⟨AwsCall.startDbInstance d.dbInstanceIdentifier :: r.1.calls,
          LogEntry.error ("RDS instance " ++ d.dbInstanceIdentifier ++ " cannot be started as it is not in a valid state!") :: r.1.logs⟩,
         r.2)
      else
        (⟨[AwsCall.startDbInstance d.dbInstanceIdentifier], []⟩,
         some (PyError.clientError code m))
    | some (PyError.exn m) =>
      (⟨[AwsCall.startDbInstance d.dbInstanceIdentifier], []⟩, some (PyError.exn m))

/-- `AWSManager.start_rds_db` (lines 60-82): describe DB instances; empty
`DBInstances` raises "No RDS instances found."; the outer try/except logs
any escaping exception and swallows it. -/
def start_rds_db (p : Provider) : Trace × Option PyError :=
  match p.describeDbErr with
  | some e => (⟨[AwsCall.describeDbInstances], [LogEntry.error e.render]⟩, none)
  | none =>
    if p.dbInstances = [] then
      (⟨[AwsCall.describeDbInstances], [LogEntry.error "No RDS instances found."]⟩, none)
    else
      let r := startRdsGo p p.dbInstances
      match r.2 with
      | none => (⟨AwsCall.describeDbInstances :: r.1.calls, r.1.logs⟩, none)
      | some e =>
        (⟨AwsCall.describeDbInstances :: r.1.calls, r.1.logs ++ [LogEntry.error e.render]⟩, none)

/-- Body of the DB-instance loop of `stop_rds_db` (lines 89-102), the stop
counterpart of `startRdsGo`. -/
def stopRdsGo (p : Provider) : List DbInstance → Trace × Option PyError
  | [] => (⟨[], []⟩, none)
  | d :: rest =>
    match p.stopDbErr d.dbInstanceIdentifier with
    | none =>
      let r := stopRdsGo p rest
      (⟨AwsCall.stopDbInstance d.dbInstanceIdentifier :: r.1.calls,
        LogEntry.info ("Stopped RDS instance " ++ d.dbInstanceIdentifier) :: r.1.logs⟩,
       r.2)
    | some (PyError.clientError code m) =>
      if code = "InvalidDBInstanceState" then
        let r := stopRdsGo p rest
        (⟨AwsCall.stopDbInstance d.dbInstanceIdentifier :: r.1.calls,
          LogEntry.error ("RDS instance " ++ d.dbInstanceIdentifier ++ " cannot be stopped as it is not in a valid state") :: r.1.logs⟩,
         r.2)
      else
        (⟨[AwsCall.stopDbInstance d.dbInstanceIdentifier], []⟩,
         some (PyError.clientError code m))
    | some (PyError.exn m) =>
      (⟨[AwsCall.stopDbInstance d.dbInstanceIdentifier], []⟩, some (PyError.exn m))

/-- `AWSManager.stop_rds_db` (lines 84-106). -/
def stop_rds_db (p : Provider) : Trace × Option PyError :=
  match p.describeDbErr with
  | some e => (⟨[AwsCall.describeDbInstances], [LogEntry.error e.render]⟩, none)
  | none =>
    if p.dbInstances = [] then
      (⟨[AwsCall.describeDbInstances], [LogEntry.error "No RDS instances found."]⟩, none)
    else
      let r := stopRdsGo p p.dbInstances
      match r.2 with
      | none => (⟨AwsCall.describeDbInstances :: r.1.calls, r.1.logs⟩, none)
      | some e =>
        (⟨AwsCall.describeDbInstances :: r.1.calls, r.1.logs ++ [LogEntry.error e.render]⟩, none)

/-- Body of the group loop of `ec2_asg_desired_capacity` (lines 119-139):
each group gets an `update_auto_scaling_group` call with the given
MinSize/MaxSize/DesiredCapacity; a failing update is logged and RE-RAISED,
aborting the remaining groups; a successful one logs the capacity change. -/
def ec2AsgGo (p : Provider) (desired_count min_count max_count : Int) :
    List Asg → Trace × Option PyError
  | [] => (⟨[], []⟩, none)
  | g :: rest =>
    match p.updateAsgErr g.autoScalingGroupName with
    | some e =>
      (⟨[AwsCall.updateAutoScalingGroup g.autoScalingGroupName min_count max_count desired_count],
        [LogEntry.error ("Error occurred while updating Auto Scaling Group " ++ g.autoScalingGroupName ++ ": " ++ e.render)]⟩,
       some e)
    | none =>
      let r := ec2AsgGo p desired_count min_count max_count rest
      (⟨AwsCall.updateAutoScalingGroup g.autoScalingGroupName min_count max_count desired_count :: r.1.calls,
        LogEntry.info ("Capacity updated for Auto Scaling Group " ++ g.autoScalingGroupName ++ ": from " ++ toString g.desiredCapacity ++ " to " ++ toString desired_count) :: r.1.logs⟩,
       r.2)

/-- `AWSManager.ec2_asg_desired_capacity` (lines 108-139): a failing
enumeration of the groups is logged and re-raised; then every group's
capacity is updated, each failure logged and re-raised.  There is no
emptiness check on the group list and no outer catch-all. -/
def ec2_asg_desired_capacity (p : Provider) (desired_count min_count max_count : Int) :
    Trace × Option PyError :=
  match p.describeAsgErr with
  | some e =>
    (⟨[AwsCall.describeAutoScalingGroups],
      [LogEntry.error ("Error occurred while retrieving Auto Scaling Groups: " ++ e.render)]⟩,
     some e)
  | none =>
    let r := ec2AsgGo p desired_count min_count max_count p.autoScalingGroups
    (⟨AwsCall.describeAutoScalingGroups :: r.1.calls, r.1.logs⟩, r.2)

/-- Run `a`; if it raised, stop there, otherwise run `b` after it (Python
statement sequencing under exceptions). -/
def thenRun (a : Trace × Option PyError) (b : Unit → Trace × Option PyError) :
    Trace × Option PyError :=
  match a.2 with
  | some e => (a.1, some e)
  | none =>
    let r := b ()
    (a.1.append r.1, r.2)

/-- `AWSManager.stop_all_resources` (lines 141-144): stop EC2, stop RDS, then
`ec2_asg_desired_capacity(0,0,0)`. -/
def stop_all_resources (p : Provider) : Trace × Option PyError :=
  thenRun (stop_ec2_instances p) fun _ =>
    thenRun (stop_rds_db p) fun _ =>
      ec2_asg_desired_capacity p 0 0 0

/-- `AWSManager.start_all_resources` (lines 146-149): start EC2, start RDS,
then `ec2_asg_desired_capacity(0,2,1)` — positionally desired_count=0,
min_count=2, max_count=1. -/
def start_all_resources (p : Provider) : Trace × Option PyError :=
  thenRun (start_ec2_instances p) fun _ =>
    thenRun (start_rds_db p) fun _ =>
      ec2_asg_desired_capacity p 0 2 1

/-- One row of the EC2 status table. -/
structure Ec2Row where
  instanceId : String
  instanceType : String
  name : String
  stateName : String
deriving DecidableEq, Repr

/-- The tag loop of `check_ec2_status` (lines 165-167): `instance_name` keeps
its previous value `acc` unless a tag with Key "Name" overwrites it; the last
"Name" tag wins. -/
def lastNameTag (acc : Option String) : List Tag → Option String
  | [] => acc
  | t :: rest => lastNameTag (if t.key = "Name" then some t.value else acc) rest

/-- The instance loop of `check_ec2_status` (lines 163-173): `nm` is the
current value of the Python local `instance_name`, which persists across
iterations; using it while still unbound raises, and the method has no
try/except, so the error escapes. -/
def checkEc2Rows (nm : Option String) : List Ec2Instance → Except PyError (List Ec2Row)
  | [] => Except.ok []
  | i :: rest =>
    match lastNameTag nm i.tags with
    | none =>
      Except.error (PyError.exn "local variable 'instance_name' referenced before assignment")
    | some n =>
      match checkEc2Rows (some n) rest with
      | Except.error e => Except.error e
      | Except.ok rows => Except.ok (⟨i.instanceId, i.instanceType, n, i.stateName⟩ :: rows)

/-- `AWSManager.check_ec2_status` (lines 151-174): describe instances and
build the table rows; no error handling anywhere in the method. -/
def check_ec2_status (p : Provider) : Trace × Except PyError (List Ec2Row) :=
  match p.describeInstancesErr with
  | some e => (⟨[AwsCall.describeInstances], []⟩, Except.error e)
  | none =>
    if p.reservations = [] then (⟨[AwsCall.describeInstances], []⟩, Except.ok [])
    else (⟨[AwsCall.describeInstances], []⟩, checkEc2Rows none (enumInstances p))

/-- One row of the RDS status table. -/
structure RdsRow where
  dbInstanceIdentifier : String
  dbInstanceClass : String
  dbInstanceStatus : String
deriving DecidableEq, Repr

/-- `AWSManager.check_rds_status` (lines 176-191). -/
def check_rds_status (p : Provider) : Trace × Except PyError (List RdsRow) :=
  match p.describeDbErr with
  | some e => (⟨[AwsCall.describeDbInstances], []⟩, Except.error e)
  | none =>
    (⟨[AwsCall.describeDbInstances], []⟩,
     Except.ok (p.dbInstances.map fun d =>
       ⟨d.dbInstanceIdentifier, d.dbInstanceClass, d.dbInstanceStatus⟩))

/-- One row of the ASG status table (capacities rendered with `str`). -/
structure AsgRow where
  name : String
  minCapacity : String
  maxCapacity : String
  desiredCapacity : String
deriving DecidableEq, Repr

/-- `AWSManager.check_asg_status` (lines 193-209). -/
def check_asg_status (p : Provider) : Trace × Except PyError (List AsgRow) :=
  match p.describeAsgErr with
  | some e => (⟨[AwsCall.describeAutoScalingGroups], []⟩, Except.error e)
  | none =>
    (⟨[AwsCall.describeAutoScalingGroups], []⟩,
     Except.ok (p.autoScalingGroups.map fun g =>
       ⟨g.autoScalingGroupName, toString g.minSize, toString g.maxSize, toString g.desiredCapacity⟩))

/-- `AWSManager.check_status` (lines 211-221): the three status queries in
order, printing each table; no error handling, so the first raising query
aborts the rest and the error escapes. -/
def check_status (p : Provider) : Trace × Option PyError :=
  let a := check_ec2_status p
  match a.2 with
  | Except.error e => (a.1, some e)
  | Except.ok _ =>
    let b := check_rds_status p
    match b.2 with
    | Except.error e => (a.1.append b.1, some e)
    | Except.ok _ =>
      let c := check_asg_status p
      match c.2 with
      | Except.error e => ((a.1.append b.1).append c.1, some e)
      | Except.ok _ => ((a.1.append b.1).append c.1, none)

/-- `run_choice` (lines 245-303): dispatch a menu choice to the manager; the
function itself has no try/except, so whatever the dispatched method raises
escapes to the menu loop.  Choice 7 is
`ec2_asg_desired_capacity(min_count=0, max_count=1, desired_count=1)` and
choice 8 is `ec2_asg_desired_capacity(min_count=0, max_count=0,
desired_count=0)`. -/
def run_choice (p : Provider) (choice : String) : Trace × Option PyError :=
  if choice = "0" then check_status p
  else if choice = "1" then stop_all_resources p
  else if choice = "2" then start_all_resources p
  else if choice = "3" then start_ec2_instances p
  else if choice = "4" then stop_ec2_instances p
  else if choice = "5" then start_rds_db p
  else if choice = "6" then stop_rds_db p
  else if choice = "7" then ec2_asg_desired_capacity p 1 0 1
  else if choice = "8" then ec2_asg_desired_capacity p 0 0 0
  else (⟨[], []⟩, none)

/-! ## Concrete providers used as test inputs -/

/-- A provider with one scaling group and no errors. -/
def pOneAsg : Provider := { autoScalingGroups := [⟨"asg1", 1, 1, 1⟩] }

/-- A provider whose scaling-group enumeration raises. -/
def pBadAsg : Provider := { describeAsgErr := some (PyError.exn "boom") }

/-- A provider with no resources at all and no errors. -/
def pEmpty : Provider := {}

/-- Two EC2 instances, the first marked by a first tag value "true", the
second carrying an ordinary Name tag. -/
def pEc2 : Provider :=
  { reservations :=
      [⟨[⟨"i-1", "t2.micro", "running", [⟨"aws:autoscaling:groupName", "true"⟩]⟩,
         ⟨"i-2", "t2.micro", "stopped", [⟨"Name", "web"⟩]⟩]⟩] }

/-- Two DB instances; start/stop of "db2" raises InvalidDBInstanceState. -/
def pTwoDb : Provider :=
  { dbInstances := [⟨"db1", "db.t3.micro", "available"⟩, ⟨"db2", "db.t3.micro", "stopped"⟩],
    startDbErr := fun id =>
      if id = "db2" then some (PyError.clientError "InvalidDBInstanceState" "invalid state") else none,
    stopDbErr := fun id =>
      if id = "db2" then some (PyError.clientError "InvalidDBInstanceState" "invalid state") else none }

/-- A provider whose first (and only) EC2 instance has no "Name" tag. -/
def pNoName : Provider :=
  { reservations := [⟨[⟨"i-1", "t2.micro", "running", [⟨"Env", "prod"⟩]⟩]⟩] }

/-! ## Helper lemmas -/

/-- On a happy path (every instance tagged, no start error) the EC2 start
loop calls `start_instances` exactly once per non-skipped instance, in
order, and finishes without an exception. -/
theorem startEc2Go_happy (p : Provider) (l : List Ec2Instance)
    (htags : ∀ i ∈ l, i.tags ≠ [])
    (hstart : ∀ i ∈ l, p.startInstancesErr i.instanceId = none) :
    (startEc2Go p l).1.calls =
      (l.filter fun i => !firstTagIsTrue i).map (fun i => AwsCall.startInstances [i.instanceId])
    ∧ (startEc2Go p l).2 = none := by
  induction l with
  | nil => simp [startEc2Go]
  | cons i rest ih =>
    have hti : i.tags ≠ [] := htags i (by simp)
    have hsi : p.startInstancesErr i.instanceId = none := hstart i (by simp)
    have ih' := ih (fun j hj => htags j (by simp [hj])) (fun j hj => hstart j (by simp [hj]))
    obtain ⟨iid, ity, ist, tags⟩ := i
    cases tags with
    | nil => exact absurd rfl hti
    | cons t ts =>
      by_cases hv : t.value = "true"
      · simpa [startEc2Go, firstTagIsTrue, hv] using ih'
      · simp only [startEc2Go, firstTagIsTrue] at hsi ⊢
        rw [hsi] at *
        simp [hv, ih'.1, ih'.2, firstTagIsTrue]

/-- Stop counterpart of `startEc2Go_happy`. -/
theorem stopEc2Go_happy (p : Provider) (l : List Ec2Instance)
    (htags : ∀ i ∈ l, i.tags ≠ [])
    (hstop : ∀ i ∈ l, p.stopInstancesErr i.instanceId = none) :
    (stopEc2Go p l).1.calls =
      (l.filter fun i => !firstTagIsTrue i).map (fun i => AwsCall.stopInstances [i.instanceId])
    ∧ (stopEc2Go p l).2 = none := by
  induction l with
  | nil => simp [stopEc2Go]
  | cons i rest ih =>
    have hti : i.tags ≠ [] := htags i (by simp)
    have hsi : p.stopInstancesErr i.instanceId = none := hstop i (by simp)
    have ih' := ih (fun j hj => htags j (by simp [hj])) (fun j hj => hstop j (by simp [hj]))
    obtain ⟨iid, ity, ist, tags⟩ := i
    cases tags with
    | nil => exact absurd rfl hti
    | cons t ts =>
      by_cases hv : t.value = "true"
      · simpa [stopEc2Go, firstTagIsTrue, hv] using ih'
      · simp only [stopEc2Go, firstTagIsTrue] at hsi ⊢
        rw [hsi] at *
        simp [hv, ih'.1, ih'.2, firstTagIsTrue]

/-- `start_ec2_instances` never lets an exception escape. -/
theorem start_ec2_instances_swallows (p : Provider) : (start_ec2_instances p).2 = none := by
  unfold start_ec2_instances
  cases p.describeInstancesErr with
  | some e => rfl
  | none =>
    by_cases hr : p.reservations = []
    · simp [hr]
    · cases h2 : (startEc2Go p (enumInstances p)).2 <;> simp [hr, h2]

/-- `stop_ec2_instances` never lets an exception escape. -/
theorem stop_ec2_instances_swallows (p : Provider) : (stop_ec2_instances p).2 = none := by
  unfold stop_ec2_instances
  cases p.describeInstancesErr with
  | some e => rfl
  | none =>
    by_cases hr : p.reservations = []
    · simp [hr]
    · cases h2 : (stopEc2Go p (enumInstances p)).2 <;> simp [hr, h2]

/-- `start_rds_db` never lets an exception escape. -/
theorem start_rds_db_swallows (p : Provider) : (start_rds_db p).2 = none := by
  unfold start_rds_db
  cases p.describeDbErr with
  | some e => rfl
  | none =>
    by_cases hr : p.dbInstances = []
    · simp [hr]
    · cases h2 : (startRdsGo p p.dbInstances).2 <;> simp [hr, h2]

/-- `stop_rds_db` never lets an exception escape. -/
theorem stop_rds_db_swallows (p : Provider) : (stop_rds_db p).2 = none := by
  unfold stop_rds_db
  cases p.describeDbErr with
  | some e => rfl
  | none =>
    by_cases hr : p.dbInstances = []
    · simp [hr]
    · cases h2 : (stopRdsGo p p.dbInstances).2 <;> simp [hr, h2]

/-- Every call of the EC2 start loop is a `start_instances` call. -/
theorem mem_startEc2Go_calls (p : Provider) (l : List Ec2Instance) (c : AwsCall)
    (hc : c ∈ (startEc2Go p l).1.calls) : ∃ id, c = AwsCall.startInstances [id] := by
  induction l with
  | nil => simp [startEc2Go] at hc
  | cons i rest ih =>
    obtain ⟨iid, ity, ist, tags⟩ := i
    cases tags with
    | nil => simp [startEc2Go] at hc
    | cons t ts =>
      by_cases hv : t.value = "true"
      · exact ih (by simpa [startEc2Go, hv] using hc)
      · cases hs : p.startInstancesErr iid with
        | some e =>
          simp [startEc2Go, hv, hs] at hc
          exact ⟨iid, hc⟩
        | none =>
          simp [startEc2Go, hv, hs] at hc
          rcases hc with rfl | hc
          · exact ⟨iid, rfl⟩
          · exact ih hc

/-- Every call of the EC2 stop loop is a `stop_instances` call. -/
theorem mem_stopEc2Go_calls (p : Provider) (l : List Ec2Instance) (c : AwsCall)
    (hc : c ∈ (stopEc2Go p l).1.calls) : ∃ id, c = AwsCall.stopInstances [id] := by
  induction l with
  | nil => simp [stopEc2Go] at hc
  | cons i rest ih =>
    obtain ⟨iid, ity, ist, tags⟩ := i
    cases tags with
    | nil => simp [stopEc2Go] at hc
    | cons t ts =>
      by_cases hv : t.value = "true"
      · exact ih (by simpa [stopEc2Go, hv] using hc)
      · cases hs : p.stopInstancesErr iid with
        | some e =>
          simp [stopEc2Go, hv, hs] at hc
          exact ⟨iid, hc⟩
        | none =>
          simp [stopEc2Go, hv, hs] at hc
          rcases hc with rfl | hc
          · exact ⟨iid, rfl⟩
          · exact ih hc

/-- `start_ec2_instances` only issues the describe and `start_instances`. -/
theorem mem_start_ec2_instances_calls (p : Provider) (c : AwsCall)
    (hc : c ∈ (start_ec2_instances p).1.calls) :
    c = AwsCall.describeInstances ∨ ∃ id, c = AwsCall.startInstances [id] := by
  unfold start_ec2_instances at hc
  cases hd : p.describeInstancesErr with
  | some e => rw [hd] at hc; simp at hc; exact Or.inl hc
  | none =>
    rw [hd] at hc
    by_cases hr : p.reservations = []
    · simp [hr] at hc; exact Or.inl hc
    · cases h2 : (startEc2Go p (enumInstances p)).2 <;> simp [hr, h2] at hc <;>
        rcases hc with rfl | hc
      · exact Or.inl rfl
      · exact Or.inr (mem_startEc2Go_calls p _ c hc)
      · exact Or.inl rfl
      · exact Or.inr (mem_startEc2Go_calls p _ c hc)

/-- `stop_ec2_instances` only issues the describe and `stop_instances`. -/
theorem mem_stop_ec2_instances_calls (p : Provider) (c : AwsCall)
    (hc : c ∈ (stop_ec2_instances p).1.calls) :
    c = AwsCall.describeInstances ∨ ∃ id, c = AwsCall.stopInstances [id] := by
  unfold stop_ec2_instances at hc
  cases hd : p.describeInstancesErr with
  | some e => rw [hd] at hc; simp at hc; exact Or.inl hc
  | none =>
    rw [hd] at hc
    by_cases hr : p.reservations = []
    · simp [hr] at hc; exact Or.inl hc
    · cases h2 : (stopEc2Go p (enumInstances p)).2 <;> simp [hr, h2] at hc <;>
        rcases hc with rfl | hc
      · exact Or.inl rfl
      · exact Or.inr (mem_stopEc2Go_calls p _ c hc)
      · exact Or.inl rfl
      · exact Or.inr (mem_stopEc2Go_calls p _ c hc)

/-- Every call of the RDS start loop is a `start_db_instance` call. -/
theorem mem_startRdsGo_calls (p : Provider) (l : List DbInstance) (c : AwsCall)
    (hc : c ∈ (startRdsGo p l).1.calls) : ∃ id, c = AwsCall.startDbInstance id := by
  induction l with
  | nil => simp [startRdsGo] at hc
  | cons d rest ih =>
    cases hs : p.startDbErr d.dbInstanceIdentifier with
    | none =>
      simp [startRdsGo, hs] at hc
      rcases hc with rfl | hc
      · exact ⟨d.dbInstanceIdentifier, rfl⟩
      · exact ih hc
    | some e =>
      cases e with
      | clientError code m =>
        by_cases hcode : code = "InvalidDBInstanceState"
        · simp [startRdsGo, hs, hcode] at hc
          rcases hc with rfl | hc
          · exact ⟨d.dbInstanceIdentifier, rfl⟩
          · exact ih hc
        · simp [startRdsGo, hs, hcode] at hc
          exact ⟨d.dbInstanceIdentifier, hc⟩
      | exn m =>
        simp [startRdsGo, hs] at hc
        exact ⟨d.dbInstanceIdentifier, hc⟩

/-- Every call of the RDS stop loop is a `stop_db_instance` call. -/
theorem mem_stopRdsGo_calls (p : Provider) (l : List DbInstance) (c : AwsCall)
    (hc : c ∈ (stopRdsGo p l).1.calls) : ∃ id, c = AwsCall.stopDbInstance id := by
  induction l with
  | nil => simp [stopRdsGo] at hc
  | cons d rest ih =>
    cases hs : p.stopDbErr d.dbInstanceIdentifier with
    | none =>
      simp [stopRdsGo, hs] at hc
      rcases hc with rfl | hc
      · exact ⟨d.dbInstanceIdentifier, rfl⟩
      · exact ih hc
    | some e =>
      cases e with
      | clientError code m =>
        by_cases hcode : code = "InvalidDBInstanceState"
        · simp [stopRdsGo, hs, hcode] at hc
          rcases hc with rfl | hc
          · exact ⟨d.dbInstanceIdentifier, rfl⟩
          · exact ih hc
        · simp [stopRdsGo, hs, hcode] at hc
          exact ⟨d.dbInstanceIdentifier, hc⟩
      | exn m =>
        simp [stopRdsGo, hs] at hc
        exact ⟨d.dbInstanceIdentifier, hc⟩

/-- `start_rds_db` only issues the describe and `start_db_instance`. -/
theorem mem_start_rds_db_calls (p : Provider) (c : AwsCall)
    (hc : c ∈ (start_rds_db p).1.calls) :
    c = AwsCall.describeDbInstances ∨ ∃ id, c = AwsCall.startDbInstance id := by
  unfold start_rds_db at hc
  cases hd : p.describeDbErr with
  | some e => rw [hd] at hc; simp at hc; exact Or.inl hc
  | none =>
    rw [hd] at hc
    by_cases hr : p.dbInstances = []
    · simp [hr] at hc; exact Or.inl hc
    · cases h2 : (startRdsGo p p.dbInstances).2 <;> simp [hr, h2] at hc <;>
        rcases hc with rfl | hc
      · exact Or.inl rfl
      · exact Or.inr (mem_startRdsGo_calls p _ c hc)
      · exact Or.inl rfl
      · exact Or.inr (mem_startRdsGo_calls p _ c hc)

/-- `stop_rds_db` only issues the describe and `stop_db_instance`. -/
theorem mem_stop_rds_db_calls (p : Provider) (c : AwsCall)
    (hc : c ∈ (stop_rds_db p).1.calls) :
    c = AwsCall.describeDbInstances ∨ ∃ id, c = AwsCall.stopDbInstance id := by
  unfold stop_rds_db at hc
  cases hd : p.describeDbErr with
  | some e => rw [hd] at hc; simp at hc; exact Or.inl hc
  | none =>
    rw [hd] at hc
    by_cases hr : p.dbInstances = []
    · simp [hr] at hc; exact Or.inl hc
    · cases h2 : (stopRdsGo p p.dbInstances).2 <;> simp [hr, h2] at hc <;>
        rcases hc with rfl | hc
      · exact Or.inl rfl
      · exact Or.inr (mem_stopRdsGo_calls p _ c hc)
      · exact Or.inl rfl
      · exact Or.inr (mem_stopRdsGo_calls p _ c hc)

/-- Every call of the ASG loop is an update with exactly the given
MinSize/MaxSize/DesiredCapacity arguments. -/
theorem mem_ec2AsgGo_calls (p : Provider) (d mn mx : Int) (l : List Asg) (c : AwsCall)
    (hc : c ∈ (ec2AsgGo p d mn mx l).1.calls) :
    ∃ n, c = AwsCall.updateAutoScalingGroup n mn mx d := by
  induction l with
  | nil => simp [ec2AsgGo] at hc
  | cons g rest ih =>
    cases hu : p.updateAsgErr g.autoScalingGroupName with
    | some e =>
      simp [ec2AsgGo, hu] at hc
      exact ⟨g.autoScalingGroupName, hc⟩
    | none =>
      simp [ec2AsgGo, hu] at hc
      rcases hc with rfl | hc
      · exact ⟨g.autoScalingGroupName, rfl⟩
      · exact ih hc

/-- `ec2_asg_desired_capacity` only issues the describe and updates carrying
exactly its capacity arguments. -/
theorem mem_ec2_asg_desired_capacity_calls (p : Provider) (d mn mx : Int) (c : AwsCall)
    (hc : c ∈ (ec2_asg_desired_capacity p d mn mx).1.calls) :
    c = AwsCall.describeAutoScalingGroups ∨ ∃ n, c = AwsCall.updateAutoScalingGroup n mn mx d := by
  unfold ec2_asg_desired_capacity at hc
  cases hd : p.describeAsgErr with
  | some e => rw [hd] at hc; simp at hc; exact Or.inl hc
  | none =>
    rw [hd] at hc
    simp at hc
    rcases hc with rfl | hc
    · exact Or.inl rfl
    · exact Or.inr (mem_ec2AsgGo_calls p d mn mx _ c hc)

/-- Whether an exception is the per-instance-tolerated
`InvalidDBInstanceState` ClientError. -/
def PyError.isInvalidState : PyError → Bool
  | .clientError code _ => code = "InvalidDBInstanceState"
  | .exn _ => false

/-- A per-call outcome the RDS loops tolerate: success or an
InvalidDBInstanceState ClientError. -/
def okOrInvalidState : Option PyError → Bool
  | none => true
  | some e => e.isInvalidState

/-- When every outcome is tolerated, the RDS start loop attempts every DB
instance, in order, and finishes without an exception. -/
theorem startRdsGo_tolerant (p : Provider) (l : List DbInstance)
    (h : ∀ d ∈ l, okOrInvalidState (p.startDbErr d.dbInstanceIdentifier) = true) :
    (startRdsGo p l).1.calls =
      l.map (fun d => AwsCall.startDbInstance d.dbInstanceIdentifier)
    ∧ (startRdsGo p l).2 = none := by
  induction l with
  | nil => simp [startRdsGo]
  | cons d rest ih =>
    have hd' : okOrInvalidState (p.startDbErr d.dbInstanceIdentifier) = true := h d (by simp)
    have ih' := ih (fun j hj => h j (by simp [hj]))
    cases hs : p.startDbErr d.dbInstanceIdentifier with
    | none => simp [startRdsGo, hs, ih'.1, ih'.2]
    | some e =>
      rw [hs] at hd'
      cases e with
      | clientError code m =>
        have hcode : code = "InvalidDBInstanceState" := by
          simpa [okOrInvalidState, PyError.isInvalidState] using hd'
        simp [startRdsGo, hs, hcode, ih'.1, ih'.2]
      | exn m => simp [okOrInvalidState, PyError.isInvalidState] at hd'

/-- Stop counterpart of `startRdsGo_tolerant`. -/
theorem stopRdsGo_tolerant (p : Provider) (l : List DbInstance)
    (h : ∀ d ∈ l, okOrInvalidState (p.stopDbErr d.dbInstanceIdentifier) = true) :
    (stopRdsGo p l).1.calls =
      l.map (fun d => AwsCall.stopDbInstance d.dbInstanceIdentifier)
    ∧ (stopRdsGo p l).2 = none := by
  induction l with
  | nil => simp [stopRdsGo]
  | cons d rest ih =>
    have hd' : okOrInvalidState (p.stopDbErr d.dbInstanceIdentifier) = true := h d (by simp)
    have ih' := ih (fun j hj => h j (by simp [hj]))
    cases hs : p.stopDbErr d.dbInstanceIdentifier with
    | none => simp [stopRdsGo, hs, ih'.1, ih'.2]
    | some e =>
      rw [hs] at hd'
      cases e with
      | clientError code m =>
        have hcode : code = "InvalidDBInstanceState" := by
          simpa [okOrInvalidState, PyError.isInvalidState] using hd'
        simp [stopRdsGo, hs, hcode, ih'.1, ih'.2]
      | exn m => simp [okOrInvalidState, PyError.isInvalidState] at hd'

/-- A non-tolerated error in the RDS start loop aborts right after the
failing call: the attempted instances are exactly the tolerated ones plus
the failing one, and the error escapes the loop. -/
theorem startRdsGo_abort (p : Provider) (pre post : List DbInstance) (bad : DbInstance)
    (e : PyError)
    (hpre : ∀ d ∈ pre, okOrInvalidState (p.startDbErr d.dbInstanceIdentifier) = true)
    (hbad : p.startDbErr bad.dbInstanceIdentifier = some e)
    (hinv : e.isInvalidState = false) :
    (startRdsGo p (pre ++ bad :: post)).1.calls =
      pre.map (fun d => AwsCall.startDbInstance d.dbInstanceIdentifier)
        ++ [AwsCall.startDbInstance bad.dbInstanceIdentifier]
    ∧ (startRdsGo p (pre ++ bad :: post)).2 = some e := by
  induction pre with
  | nil =>
    cases e with
    | clientError code m =>
      have hcode : code ≠ "InvalidDBInstanceState" := by
        simpa [PyError.isInvalidState] using hinv
      simp [startRdsGo, hbad, hcode]
    | exn m => simp [startRdsGo, hbad]
  | cons d rest ih =>
    have hd' : okOrInvalidState (p.startDbErr d.dbInstanceIdentifier) = true :=
      hpre d (by simp)
    have ih' := ih (fun j hj => hpre j (by simp [hj]))
    cases hs : p.startDbErr d.dbInstanceIdentifier with
    | none => simp [startRdsGo, hs, ih'.1, ih'.2]
    | some e2 =>
      rw [hs] at hd'
      cases e2 with
      | clientError code m =>
        have hcode : code = "InvalidDBInstanceState" := by
          simpa [okOrInvalidState, PyError.isInvalidState] using hd'
        simp [startRdsGo, hs, hcode, ih'.1, ih'.2]
      | exn m => simp [okOrInvalidState, PyError.isInvalidState] at hd'

/-- Stop counterpart of `startRdsGo_abort`. -/
theorem stopRdsGo_abort (p : Provider) (pre post : List DbInstance) (bad : DbInstance)
    (e : PyError)
    (hpre : ∀ d ∈ pre, okOrInvalidState (p.stopDbErr d.dbInstanceIdentifier) = true)
    (hbad : p.stopDbErr bad.dbInstanceIdentifier = some e)
    (hinv : e.isInvalidState = false) :
    (stopRdsGo p (pre ++ bad :: post)).1.calls =
      pre.map (fun d => AwsCall.stopDbInstance d.dbInstanceIdentifier)
        ++ [AwsCall.stopDbInstance bad.dbInstanceIdentifier]
    ∧ (stopRdsGo p (pre ++ bad :: post)).2 = some e := by
  induction pre with
  | nil =>
    cases e with
    | clientError code m =>
      have hcode : code ≠ "InvalidDBInstanceState" := by
        simpa [PyError.isInvalidState] using hinv
      simp [stopRdsGo, hbad, hcode]
    | exn m => simp [stopRdsGo, hbad]
  | cons d rest ih =>
    have hd' : okOrInvalidState (p.stopDbErr d.dbInstanceIdentifier) = true :=
      hpre d (by simp)
    have ih' := ih (fun j hj => hpre j (by simp [hj]))
    cases hs : p.stopDbErr d.dbInstanceIdentifier with
    | none => simp [stopRdsGo, hs, ih'.1, ih'.2]
    | some e2 =>
      rw [hs] at hd'
      cases e2 with
      | clientError code m =>
        have hcode : code = "InvalidDBInstanceState" := by
          simpa [okOrInvalidState, PyError.isInvalidState] using hd'
        simp [stopRdsGo, hs, hcode, ih'.1, ih'.2]
      | exn m => simp [okOrInvalidState, PyError.isInvalidState] at hd'

/-- A failing group update aborts the ASG loop right after the failing call,
the error escapes, and the failure is the last log line of the loop. -/
theorem ec2AsgGo_abort (p : Provider) (d mn mx : Int) (pre post : List Asg) (bad : Asg)
    (e : PyError)
    (hpre : ∀ g ∈ pre, p.updateAsgErr g.autoScalingGroupName = none)
    (hbad : p.updateAsgErr bad.autoScalingGroupName = some e) :
    (ec2AsgGo p d mn mx (pre ++ bad :: post)).1.calls =
      pre.map (fun g => AwsCall.updateAutoScalingGroup g.autoScalingGroupName mn mx d)
        ++ [AwsCall.updateAutoScalingGroup bad.autoScalingGroupName mn mx d]
    ∧ (ec2AsgGo p d mn mx (pre ++ bad :: post)).2 = some e
    ∧ ∃ l, (ec2AsgGo p d mn mx (pre ++ bad :: post)).1.logs =
        l ++ [LogEntry.error ("Error occurred while updating Auto Scaling Group "
                ++ bad.autoScalingGroupName ++ ": " ++ e.render)] := by
  induction pre with
  | nil =>
    refine ⟨by simp [ec2AsgGo, hbad], by simp [ec2AsgGo, hbad], [], by simp [ec2AsgGo, hbad]⟩
  | cons g rest ih =>
    have hg : p.updateAsgErr g.autoScalingGroupName = none := hpre g (by simp)
    have ih' := ih (fun j hj => hpre j (by simp [hj]))
    obtain ⟨l, hl⟩ := ih'.2.2
    refine ⟨by simp [ec2AsgGo, hg, ih'.1], by simp [ec2AsgGo, hg, ih'.2.1], ?_⟩
    exact ⟨LogEntry.info ("Capacity updated for Auto Scaling Group " ++ g.autoScalingGroupName
            ++ ": from " ++ toString g.desiredCapacity ++ " to " ++ toString d) :: l,
           by simp [ec2AsgGo, hg, hl]⟩

/-- `check_ec2_status` issues exactly the one describe call. -/
theorem check_ec2_status_calls (p : Provider) :
    (check_ec2_status p).1.calls = [AwsCall.describeInstances] := by
  unfold check_ec2_status
  cases p.describeInstancesErr with
  | some e => rfl
  | none =>
    by_cases hr : p.reservations = [] <;> simp [hr]

/-- `check_rds_status` issues exactly the one describe call. -/
theorem check_rds_status_calls (p : Provider) :
    (check_rds_status p).1.calls = [AwsCall.describeDbInstances] := by
  unfold check_rds_status
  cases p.describeDbErr with
  | some e => rfl
  | none => rfl

/-- `check_asg_status` issues exactly the one describe call. -/
theorem check_asg_status_calls (p : Provider) :
    (check_asg_status p).1.calls = [AwsCall.describeAutoScalingGroups] := by
  unfold check_asg_status
  cases p.describeAsgErr with
  | some e => rfl
  | none => rfl

/-- `check_status` issues only describe calls (a prefix of the three). -/
theorem mem_check_status_calls (p : Provider) (c : AwsCall)
    (hc : c ∈ (check_status p).1.calls) :
    c = AwsCall.describeInstances ∨ c = AwsCall.describeDbInstances
      ∨ c = AwsCall.describeAutoScalingGroups := by
  simp only [check_status] at hc
  cases h1 : (check_ec2_status p).2 with
  | error e =>
    rw [h1] at hc
    rw [check_ec2_status_calls] at hc
    simp at hc
    exact Or.inl hc
  | ok v =>
    rw [h1] at hc
    cases h2 : (check_rds_status p).2 with
    | error e =>
      rw [h2] at hc
      simp only [Trace.append] at hc
      rw [check_ec2_status_calls, check_rds_status_calls] at hc
      simp at hc
      rcases hc with rfl | rfl
      · exact Or.inl rfl
      · exact Or.inr (Or.inl rfl)
    | ok w =>
      rw [h2] at hc
      cases h3 : (check_asg_status p).2 with
      | error e =>
        rw [h3] at hc
        simp only [Trace.append] at hc
        rw [check_ec2_status_calls, check_rds_status_calls, check_asg_status_calls] at hc
        simp at hc
        rcases hc with rfl | rfl | rfl
        · exact Or.inl rfl
        · exact Or.inr (Or.inl rfl)
        · exact Or.inr (Or.inr rfl)
      | ok u =>
        rw [h3] at hc
        simp only [Trace.append] at hc
        rw [check_ec2_status_calls, check_rds_status_calls, check_asg_status_calls] at hc
        simp at hc
        rcases hc with rfl | rfl | rfl
        · exact Or.inl rfl
        · exact Or.inr (Or.inl rfl)
        · exact Or.inr (Or.inr rfl)

/-- `stop_all_resources` is the three stop operations in sequence: the stop
methods swallow their exceptions, so the capacity update always runs and the
trace is the concatenation of the three. -/
theorem stop_all_resources_decomp (p : Provider) :
    (stop_all_resources p).1.calls =
      (stop_ec2_instances p).1.calls ++ (stop_rds_db p).1.calls
        ++ (ec2_asg_desired_capacity p 0 0 0).1.calls
    ∧ (stop_all_resources p).1.logs =
      (stop_ec2_instances p).1.logs ++ (stop_rds_db p).1.logs
        ++ (ec2_asg_desired_capacity p 0 0 0).1.logs
    ∧ (stop_all_resources p).2 = (ec2_asg_desired_capacity p 0 0 0).2 := by
  refine ⟨?_, ?_, ?_⟩ <;>
    simp [stop_all_resources, thenRun, stop_ec2_instances_swallows,
      stop_rds_db_swallows, Trace.append]

/-- `start_all_resources` is the two start operations followed by the
capacity update with desired_count=0, min_count=2, max_count=1. -/
theorem start_all_resources_decomp (p : Provider) :
    (start_all_resources p).1.calls =
      (start_ec2_instances p).1.calls ++ (start_rds_db p).1.calls
        ++ (ec2_asg_desired_capacity p 0 2 1).1.calls
    ∧ (start_all_resources p).1.logs =
      (start_ec2_instances p).1.logs ++ (start_rds_db p).1.logs
        ++ (ec2_asg_desired_capacity p 0 2 1).1.logs
    ∧ (start_all_resources p).2 = (ec2_asg_desired_capacity p 0 2 1).2 := by
  refine ⟨?_, ?_, ?_⟩ <;>
    simp [start_all_resources, thenRun, start_ec2_instances_swallows,
      start_rds_db_swallows, Trace.append]

/-- The tag loop leaves `instance_name` untouched when no tag has Key
"Name". -/
theorem lastNameTag_no_name (acc : Option String) (tags : List Tag)
    (h : ∀ t ∈ tags, t.key ≠ "Name") : lastNameTag acc tags = acc := by
  induction tags generalizing acc with
  | nil => rfl
  | cons t rest ih =>
    have ht : t.key ≠ "Name" := h t (by simp)
    simp [lastNameTag, ht]
    exact ih acc (fun j hj => h j (by simp [hj]))

/-! ## Claims -/

/-- C1: for every compute instance returned by enumeration whose first tag
value equals the literal string "true", `start_ec2_instances` and
`stop_ec2_instances` issue no start/stop call for that instance; every other
enumerated instance gets exactly one start (resp. stop) call — stated on a
run where the enumeration succeeds, every instance carries at least one tag,
and the issued start/stop calls themselves do not raise. -/
theorem C1_marker_tag_skips_start_stop (p : Provider)
    (hd : p.describeInstancesErr = none)
    (htags : ∀ i ∈ enumInstances p, i.tags ≠ [])
    (hstart : ∀ i ∈ enumInstances p, p.startInstancesErr i.instanceId = none)
    (hstop : ∀ i ∈ enumInstances p, p.stopInstancesErr i.instanceId = none) :
    (start_ec2_instances p).1.calls =
      AwsCall.describeInstances ::
        ((enumInstances p).filter fun i => !firstTagIsTrue i).map
          (fun i => AwsCall.startInstances [i.instanceId])
    ∧ (stop_ec2_instances p).1.calls =
      AwsCall.describeInstances ::
        ((enumInstances p).filter fun i => !firstTagIsTrue i).map
          (fun i => AwsCall.stopInstances [i.instanceId]) := by
  constructor
  · unfold start_ec2_instances
    rw [hd]
    by_cases hr : p.reservations = []
    · simp [hr, enumInstances]
    · have h := startEc2Go_happy p (enumInstances p) htags hstart
      simp [hr, h.1, h.2]
  · unfold stop_ec2_instances
    rw [hd]
    by_cases hr : p.reservations = []
    · simp [hr, enumInstances]
    · have h := stopEc2Go_happy p (enumInstances p) htags hstop
      simp [hr, h.1, h.2]

/-- Witness for C1 at `pEc2`: the "true"-marked instance i-1 is skipped and
the ordinary instance i-2 gets exactly one start and one stop call. -/
theorem C1_marker_tag_skips_start_stop_witness :
    (start_ec2_instances pEc2).1.calls =
      AwsCall.describeInstances ::
        ((enumInstances pEc2).filter fun i => !firstTagIsTrue i).map
          (fun i => AwsCall.startInstances [i.instanceId])
    ∧ (stop_ec2_instances pEc2).1.calls =
      AwsCall.describeInstances ::
        ((enumInstances pEc2).filter fun i => !firstTagIsTrue i).map
          (fun i => AwsCall.stopInstances [i.instanceId]) :=
  C1_marker_tag_skips_start_stop pEc2 rfl (by decide) (by decide) (by decide)

/-- C2 counterexample: with one scaling group "asg1" and no provider errors,
`start_all_resources` never issues the update the claim predicts
(MinSize=0, MaxSize=2, DesiredCapacity=0); the update it does issue carries
MinSize=2, MaxSize=1, DesiredCapacity=0, from the positional call
`ec2_asg_desired_capacity(0,2,1)`. -/
theorem C2_counterexample :
    AwsCall.updateAutoScalingGroup "asg1" 0 2 0 ∉ (start_all_resources pOneAsg).1.calls
    ∧ AwsCall.updateAutoScalingGroup "asg1" 2 1 0 ∈ (start_all_resources pOneAsg).1.calls := by
  decide

/-- C2 (amended): `start_all_resources` starts compute instances, then
database instances, then updates every scaling group's capacity with
desired=0, min=2, max=1; in particular every update call it issues carries
exactly MinSize=2, MaxSize=1, DesiredCapacity=0. -/
theorem C2_start_all_order_and_capacity (p : Provider) :
    (start_all_resources p).1.calls =
      (start_ec2_instances p).1.calls ++ (start_rds_db p).1.calls
        ++ (ec2_asg_desired_capacity p 0 2 1).1.calls
    ∧ ∀ c ∈ (start_all_resources p).1.calls,
        (∃ n mn mx d, c = AwsCall.updateAutoScalingGroup n mn mx d) →
        ∃ n, c = AwsCall.updateAutoScalingGroup n 2 1 0 := by
  refine ⟨(start_all_resources_decomp p).1, ?_⟩
  intro c hc hupd
  rw [(start_all_resources_decomp p).1] at hc
  simp only [List.append_assoc, List.mem_append] at hc
  obtain ⟨n, mn, mx, d, rfl⟩ := hupd
  rcases hc with hc | hc | hc
  · rcases mem_start_ec2_instances_calls p _ hc with h | ⟨id, h⟩ <;> simp at h
  · rcases mem_start_rds_db_calls p _ hc with h | ⟨id, h⟩ <;> simp at h
  · rcases mem_ec2_asg_desired_capacity_calls p 0 2 1 _ hc with h | ⟨n', h⟩
    · simp at h
    · obtain ⟨h1, h2, h3, h4⟩ := AwsCall.updateAutoScalingGroup.inj h
      exact ⟨n, by rw [h2, h3, h4]⟩

/-- Witness for C2 at `pOneAsg`: the decomposition holds and the one update
call issued there carries MinSize=2, MaxSize=1, DesiredCapacity=0. -/
theorem C2_start_all_order_and_capacity_witness :
    (start_all_resources pOneAsg).1.calls =
      (start_ec2_instances pOneAsg).1.calls ++ (start_rds_db pOneAsg).1.calls
        ++ (ec2_asg_desired_capacity pOneAsg 0 2 1).1.calls
    ∧ ∃ n, AwsCall.updateAutoScalingGroup "asg1" 2 1 0
        = AwsCall.updateAutoScalingGroup n 2 1 0 :=
  ⟨(C2_start_all_order_and_capacity pOneAsg).1,
   (C2_start_all_order_and_capacity pOneAsg).2 _ (by decide) ⟨"asg1", 2, 1, 0, rfl⟩⟩

/-- C3: `stop_all_resources` invokes stop of compute instances, then stop of
database instances, then the scaling-group capacity update with desired=0,
min=0, max=0, in exactly that order; every update call it issues carries
exactly MinSize=0, MaxSize=0, DesiredCapacity=0. -/
theorem C3_stop_all_order_and_capacity (p : Provider) :
    (stop_all_resources p).1.calls =
      (stop_ec2_instances p).1.calls ++ (stop_rds_db p).1.calls
        ++ (ec2_asg_desired_capacity p 0 0 0).1.calls
    ∧ ∀ c ∈ (stop_all_resources p).1.calls,
        (∃ n mn mx d, c = AwsCall.updateAutoScalingGroup n mn mx d) →
        ∃ n, c = AwsCall.updateAutoScalingGroup n 0 0 0 := by
  refine ⟨(stop_all_resources_decomp p).1, ?_⟩
  intro c hc hupd
  rw [(stop_all_resources_decomp p).1] at hc
  simp only [List.append_assoc, List.mem_append] at hc
  obtain ⟨n, mn, mx, d, rfl⟩ := hupd
  rcases hc with hc | hc | hc
  · rcases mem_stop_ec2_instances_calls p _ hc with h | ⟨id, h⟩ <;> simp at h
  · rcases mem_stop_rds_db_calls p _ hc with h | ⟨id, h⟩ <;> simp at h
  · rcases mem_ec2_asg_desired_capacity_calls p 0 0 0 _ hc with h | ⟨n', h⟩
    · simp at h
    · obtain ⟨h1, h2, h3, h4⟩ := AwsCall.updateAutoScalingGroup.inj h
      exact ⟨n, by rw [h2, h3, h4]⟩

/-- Witness for C3 at `pOneAsg`: the decomposition holds and the one update
call issued there carries MinSize=0, MaxSize=0, DesiredCapacity=0. -/
theorem C3_stop_all_order_and_capacity_witness :
    (stop_all_resources pOneAsg).1.calls =
      (stop_ec2_instances pOneAsg).1.calls ++ (stop_rds_db pOneAsg).1.calls
        ++ (ec2_asg_desired_capacity pOneAsg 0 0 0).1.calls
    ∧ ∃ n, AwsCall.updateAutoScalingGroup "asg1" 0 0 0
        = AwsCall.updateAutoScalingGroup n 0 0 0 :=
  ⟨(C3_stop_all_order_and_capacity pOneAsg).1,
   (C3_stop_all_order_and_capacity pOneAsg).2 _ (by decide) ⟨"asg1", 0, 0, 0, rfl⟩⟩

/-- C4: during `start_rds_db` / `stop_rds_db`, an InvalidDBInstanceState
error on one DB instance only logs a warning for that instance and every
subsequent enumerated DB instance is still attempted (on a run where every
per-instance outcome is success or InvalidDBInstanceState, the loop issues
one start/stop call per enumerated instance, in order); in particular at
`pTwoDb` — two instances, the first start succeeds, the second raises
InvalidDBInstanceState — both are attempted and only the second logs a
warning. -/
theorem C4_invalid_state_continues (p q : Provider)
    (hd : p.describeDbErr = none) (hd' : q.describeDbErr = none)
    (hstart : ∀ d ∈ p.dbInstances,
      okOrInvalidState (p.startDbErr d.dbInstanceIdentifier) = true)
    (hstop : ∀ d ∈ q.dbInstances,
      okOrInvalidState (q.stopDbErr d.dbInstanceIdentifier) = true) :
    (start_rds_db p).1.calls =
      AwsCall.describeDbInstances ::
        p.dbInstances.map (fun d => AwsCall.startDbInstance d.dbInstanceIdentifier)
    ∧ (stop_rds_db q).1.calls =
      AwsCall.describeDbInstances ::
        q.dbInstances.map (fun d => AwsCall.stopDbInstance d.dbInstanceIdentifier)
    ∧ (start_rds_db pTwoDb).1.calls =
        [AwsCall.describeDbInstances, AwsCall.startDbInstance "db1",
         AwsCall.startDbInstance "db2"]
    ∧ (start_rds_db pTwoDb).1.logs =
        [LogEntry.info "Started RDS instance db1",
         LogEntry.error "RDS instance db2 cannot be started as it is not in a valid state!"] := by
  refine ⟨?_, ?_, by decide, by decide⟩
  · unfold start_rds_db
    rw [hd]
    by_cases hr : p.dbInstances = []
    · simp [hr]
    · have h := startRdsGo_tolerant p p.dbInstances hstart
      simp [hr, h.1, h.2]
  · unfold stop_rds_db
    rw [hd']
    by_cases hr : q.dbInstances = []
    · simp [hr]
    · have h := stopRdsGo_tolerant q q.dbInstances hstop
      simp [hr, h.1, h.2]

/-- Witness for C4 at `pTwoDb` (for starts) and `pEmpty` (for stops). -/
theorem C4_invalid_state_continues_witness :
    (start_rds_db pTwoDb).1.calls =
      AwsCall.describeDbInstances ::
        pTwoDb.dbInstances.map (fun d => AwsCall.startDbInstance d.dbInstanceIdentifier)
    ∧ (stop_rds_db pEmpty).1.calls =
      AwsCall.describeDbInstances ::
        pEmpty.dbInstances.map (fun d => AwsCall.stopDbInstance d.dbInstanceIdentifier)
    ∧ (start_rds_db pTwoDb).1.calls =
        [AwsCall.describeDbInstances, AwsCall.startDbInstance "db1",
         AwsCall.startDbInstance "db2"]
    ∧ (start_rds_db pTwoDb).1.logs =
        [LogEntry.info "Started RDS instance db1",
         LogEntry.error "RDS instance db2 cannot be started as it is not in a valid state!"] :=
  C4_invalid_state_continues pTwoDb pEmpty rfl rfl (by decide) (by decide)

/-- C5: during `start_rds_db` / `stop_rds_db`, a provider error other than
InvalidDBInstanceState on a per-instance start/stop aborts the whole
operation — the attempted instances are exactly those before the failing one
plus the failing one, and none after it — the error is logged as the last
log line, and the operation returns normally to its caller (the error is
swallowed, not re-raised). -/
theorem C5_other_error_aborts_and_is_swallowed (p q : Provider)
    (pre post pre' post' : List DbInstance) (bad bad' : DbInstance) (e e' : PyError)
    (hd : p.describeDbErr = none) (hd' : q.describeDbErr = none)
    (hsplit : p.dbInstances = pre ++ bad :: post)
    (hsplit' : q.dbInstances = pre' ++ bad' :: post')
    (hpre : ∀ d ∈ pre, okOrInvalidState (p.startDbErr d.dbInstanceIdentifier) = true)
    (hpre' : ∀ d ∈ pre', okOrInvalidState (q.stopDbErr d.dbInstanceIdentifier) = true)
    (hbad : p.startDbErr bad.dbInstanceIdentifier = some e)
    (hbad' : q.stopDbErr bad'.dbInstanceIdentifier = some e')
    (hinv : e.isInvalidState = false) (hinv' : e'.isInvalidState = false) :
    ((start_rds_db p).1.calls =
      AwsCall.describeDbInstances ::
        (pre.map (fun d => AwsCall.startDbInstance d.dbInstanceIdentifier)
          ++ [AwsCall.startDbInstance bad.dbInstanceIdentifier])
     ∧ (start_rds_db p).2 = none
     ∧ ∃ l, (start_rds_db p).1.logs = l ++ [LogEntry.error e.render])
    ∧ ((stop_rds_db q).1.calls =
      AwsCall.describeDbInstances ::
        (pre'.map (fun d => AwsCall.stopDbInstance d.dbInstanceIdentifier)
          ++ [AwsCall.stopDbInstance bad'.dbInstanceIdentifier])
     ∧ (stop_rds_db q).2 = none
     ∧ ∃ l, (stop_rds_db q).1.logs = l ++ [LogEntry.error e'.render]) := by
  constructor
  · have hne : pre ++ bad :: post ≠ [] := by cases pre <;> simp
    have h := startRdsGo_abort p pre post bad e hpre hbad hinv
    unfold start_rds_db
    rw [hd, hsplit]
    simp [hne, h.1, h.2]
  · have hne : pre' ++ bad' :: post' ≠ [] := by cases pre' <;> simp
    have h := stopRdsGo_abort q pre' post' bad' e' hpre' hbad' hinv'
    unfold stop_rds_db
    rw [hd', hsplit']
    simp [hne, h.1, h.2]

/-- Concrete DB instances for the fatal-error scenario. -/
def db1 : DbInstance := ⟨"db1", "db.t3.micro", "available"⟩

/-- Second concrete DB instance; its start/stop raises a non-ClientError. -/
def db2 : DbInstance := ⟨"db2", "db.t3.micro", "available"⟩

/-- Third concrete DB instance, never reached in the fatal scenario. -/
def db3 : DbInstance := ⟨"db3", "db.t3.micro", "available"⟩

/-- Three DB instances; start/stop of "db2" raises a generic exception. -/
def pFatalDb : Provider :=
  { dbInstances := [db1, db2, db3],
    startDbErr := fun id => if id = "db2" then some (PyError.exn "boom-db") else none,
    stopDbErr := fun id => if id = "db2" then some (PyError.exn "boom-db") else none }

/-- Witness for C5 at `pFatalDb`: db1 and db2 are attempted, db3 is not, the
error is the last log line, and nothing is re-raised. -/
theorem C5_other_error_aborts_and_is_swallowed_witness :
    ((start_rds_db pFatalDb).1.calls =
        AwsCall.describeDbInstances ::
          ([db1].map (fun d => AwsCall.startDbInstance d.dbInstanceIdentifier)
            ++ [AwsCall.startDbInstance db2.dbInstanceIdentifier])
      ∧ (start_rds_db pFatalDb).2 = none
      ∧ ∃ l, (start_rds_db pFatalDb).1.logs = l ++ [LogEntry.error (PyError.exn "boom-db").render])
    ∧ ((stop_rds_db pFatalDb).1.calls =
        AwsCall.describeDbInstances ::
          ([db1].map (fun d => AwsCall.stopDbInstance d.dbInstanceIdentifier)
            ++ [AwsCall.stopDbInstance db2.dbInstanceIdentifier])
      ∧ (stop_rds_db pFatalDb).2 = none
      ∧ ∃ l, (stop_rds_db pFatalDb).1.logs = l ++ [LogEntry.error (PyError.exn "boom-db").render]) :=
  C5_other_error_aborts_and_is_swallowed pFatalDb pFatalDb [db1] [db3] [db1] [db3]
    db2 db2 (PyError.exn "boom-db") (PyError.exn "boom-db") rfl rfl (by decide) (by decide)
    (by decide) (by decide) (by decide) (by decide) (by decide) (by decide)

/-- C6: in `ec2_asg_desired_capacity`, a failure of the group enumeration is
logged and re-raised with no update issued, and a failure of any per-group
update is logged, re-raised to the caller, and aborts all remaining groups:
the updates issued are exactly those for the groups before the failing one
plus the failing one. -/
theorem C6_capacity_update_failure_propagates (p q : Provider) (e e' : PyError)
    (d mn mx d2 mn2 mx2 : Int) (pre post : List Asg) (bad : Asg)
    (hp : p.describeAsgErr = some e)
    (hq : q.describeAsgErr = none)
    (hsplit : q.autoScalingGroups = pre ++ bad :: post)
    (hpre : ∀ g ∈ pre, q.updateAsgErr g.autoScalingGroupName = none)
    (hbad : q.updateAsgErr bad.autoScalingGroupName = some e') :
    ((ec2_asg_desired_capacity p d mn mx).2 = some e
      ∧ (ec2_asg_desired_capacity p d mn mx).1.calls = [AwsCall.describeAutoScalingGroups]
      ∧ (ec2_asg_desired_capacity p d mn mx).1.logs =
          [LogEntry.error ("Error occurred while retrieving Auto Scaling Groups: " ++ e.render)])
    ∧ ((ec2_asg_desired_capacity q d2 mn2 mx2).2 = some e'
      ∧ (ec2_asg_desired_capacity q d2 mn2 mx2).1.calls =
          AwsCall.describeAutoScalingGroups ::
            (pre.map (fun g => AwsCall.updateAutoScalingGroup g.autoScalingGroupName mn2 mx2 d2)
              ++ [AwsCall.updateAutoScalingGroup bad.autoScalingGroupName mn2 mx2 d2])
      ∧ ∃ l, (ec2_asg_desired_capacity q d2 mn2 mx2).1.logs =
          l ++ [LogEntry.error ("Error occurred while updating Auto Scaling Group "
                  ++ bad.autoScalingGroupName ++ ": " ++ e'.render)]) := by
  constructor
  · unfold ec2_asg_desired_capacity
    rw [hp]
    exact ⟨rfl, rfl, rfl⟩
  · have h := ec2AsgGo_abort q d2 mn2 mx2 pre post bad e' hpre hbad
    obtain ⟨l, hl⟩ := h.2.2
    unfold ec2_asg_desired_capacity
    rw [hq, hsplit]
    exact ⟨h.2.1, by simp [h.1], l, by simp [hl]⟩

/-- Concrete scaling groups for the failing-update scenario. -/
def asg1 : Asg := ⟨"asg1", 1, 1, 1⟩

/-- Second concrete scaling group; its update raises. -/
def asg2 : Asg := ⟨"asg2", 1, 1, 1⟩

/-- Third concrete scaling group, never reached. -/
def asg3 : Asg := ⟨"asg3", 1, 1, 1⟩

/-- Three scaling groups; updating "asg2" raises a generic exception. -/
def pBadUpdate : Provider :=
  { autoScalingGroups := [asg1, asg2, asg3],
    updateAsgErr := fun n => if n = "asg2" then some (PyError.exn "update failed") else none }

/-- Witness for C6 at `pBadAsg` (failing enumeration) and `pBadUpdate`
(failing update of the second of three groups). -/
theorem C6_capacity_update_failure_propagates_witness :
    (((ec2_asg_desired_capacity pBadAsg 1 0 1).2 = some (PyError.exn "boom")
      ∧ (ec2_asg_desired_capacity pBadAsg 1 0 1).1.calls = [AwsCall.describeAutoScalingGroups]
      ∧ (ec2_asg_desired_capacity pBadAsg 1 0 1).1.logs =
          [LogEntry.error ("Error occurred while retrieving Auto Scaling Groups: "
            ++ (PyError.exn "boom").render)])
    ∧ ((ec2_asg_desired_capacity pBadUpdate 1 0 1).2 = some (PyError.exn "update failed")
      ∧ (ec2_asg_desired_capacity pBadUpdate 1 0 1).1.calls =
          AwsCall.describeAutoScalingGroups ::
            ([asg1].map (fun g => AwsCall.updateAutoScalingGroup g.autoScalingGroupName 0 1 1)
              ++ [AwsCall.updateAutoScalingGroup asg2.autoScalingGroupName 0 1 1])
      ∧ ∃ l, (ec2_asg_desired_capacity pBadUpdate 1 0 1).1.logs =
          l ++ [LogEntry.error ("Error occurred while updating Auto Scaling Group "
                  ++ asg2.autoScalingGroupName ++ ": " ++ (PyError.exn "update failed").render)])) :=
  C6_capacity_update_failure_propagates pBadAsg pBadUpdate (PyError.exn "boom")
    (PyError.exn "update failed") 1 0 1 1 0 1 [asg1] [asg3] asg2 rfl rfl
    (by decide) (by decide) (by decide)

/-- C7 counterexample: with a provider whose scaling-group enumeration
raises, menu choice "7" lets the exception escape `run_choice` to the menu
loop, refuting "run_choice never propagates an exception". -/
theorem C7_counterexample :
    (run_choice pBadAsg "7").2 = some (PyError.exn "boom") := by
  decide

/-- C7 (amended): for menu choices 3-6 (start/stop compute, start/stop
database) `run_choice` never propagates an exception, whatever the provider
does; for choices 0, 1, 2, 7, 8 it propagates exactly the exception escaping
the status path (choice 0) or the scaling-group capacity update (choices
1, 2, 7, 8), since neither those paths nor `run_choice` catch it. -/
theorem C7_dispatch_error_propagation (p : Provider) :
    (run_choice p "3").2 = none ∧ (run_choice p "4").2 = none
    ∧ (run_choice p "5").2 = none ∧ (run_choice p "6").2 = none
    ∧ (run_choice p "0").2 = (check_status p).2
    ∧ (run_choice p "1").2 = (ec2_asg_desired_capacity p 0 0 0).2
    ∧ (run_choice p "2").2 = (ec2_asg_desired_capacity p 0 2 1).2
    ∧ (run_choice p "7").2 = (ec2_asg_desired_capacity p 1 0 1).2
    ∧ (run_choice p "8").2 = (ec2_asg_desired_capacity p 0 0 0).2 := by
  have h0 : run_choice p "0" = check_status p := rfl
  have h1 : run_choice p "1" = stop_all_resources p := rfl
  have h2 : run_choice p "2" = start_all_resources p := rfl
  have h3 : run_choice p "3" = start_ec2_instances p := rfl
  have h4 : run_choice p "4" = stop_ec2_instances p := rfl
  have h5 : run_choice p "5" = start_rds_db p := rfl
  have h6 : run_choice p "6" = stop_rds_db p := rfl
  have h7 : run_choice p "7" = ec2_asg_desired_capacity p 1 0 1 := rfl
  have h8 : run_choice p "8" = ec2_asg_desired_capacity p 0 0 0 := rfl
  rw [h0, h1, h2, h3, h4, h5, h6, h7, h8]
  exact ⟨start_ec2_instances_swallows p, stop_ec2_instances_swallows p,
    start_rds_db_swallows p, stop_rds_db_swallows p, rfl,
    (stop_all_resources_decomp p).2.2, (start_all_resources_decomp p).2.2, rfl, rfl⟩

/-- C8: the status queries `check_ec2_status`, `check_rds_status`,
`check_asg_status`, and `check_status` issue only describe calls, never a
mutating call (no start, stop, or update), for every provider behavior. -/
theorem C8_status_queries_read_only (p : Provider) :
    ((check_ec2_status p).1.calls.all fun c => !c.isMutating) = true
    ∧ ((check_rds_status p).1.calls.all fun c => !c.isMutating) = true
    ∧ ((check_asg_status p).1.calls.all fun c => !c.isMutating) = true
    ∧ ((check_status p).1.calls.all fun c => !c.isMutating) = true := by
  refine ⟨?_, ?_, ?_, ?_⟩
  · rw [check_ec2_status_calls]; rfl
  · rw [check_rds_status_calls]; rfl
  · rw [check_asg_status_calls]; rfl
  · rw [List.all_eq_true]
    intro c hc
    rcases mem_check_status_calls p c hc with rfl | rfl | rfl <;> rfl

/-- C9 counterexample: with no scaling groups and no errors, the capacity
update — a mutating operation whose enumeration returned no resources —
emits no log line at all and raises nothing, refuting "this condition is
treated as an error and a log line is emitted" for every mutating
operation. -/
theorem C9_counterexample :
    (ec2_asg_desired_capacity pEmpty 0 0 0).1.logs = []
    ∧ (ec2_asg_desired_capacity pEmpty 0 0 0).2 = none := by
  decide

/-- C9 (amended): when enumeration returns no resources, start/stop of
compute instances and start/stop of database instances treat it as an error
and emit exactly one error log line; the capacity update is the exception:
it issues no update, emits no log, and raises nothing. -/
theorem C9_empty_enumeration_logging (p : Provider) (d mn mx : Int)
    (hEc2 : p.describeInstancesErr = none) (hRds : p.describeDbErr = none)
    (hAsg : p.describeAsgErr = none)
    (hr : p.reservations = []) (hdb : p.dbInstances = [])
    (hg : p.autoScalingGroups = []) :
    (start_ec2_instances p).1.logs = [LogEntry.error "No EC2 Instance found!"]
    ∧ (stop_ec2_instances p).1.logs = [LogEntry.error "No EC2 instances found!"]
    ∧ (start_rds_db p).1.logs = [LogEntry.error "No RDS instances found."]
    ∧ (stop_rds_db p).1.logs = [LogEntry.error "No RDS instances found."]
    ∧ (ec2_asg_desired_capacity p d mn mx).1.logs = []
    ∧ (ec2_asg_desired_capacity p d mn mx).1.calls = [AwsCall.describeAutoScalingGroups]
    ∧ (ec2_asg_desired_capacity p d mn mx).2 = none := by
  refine ⟨?_, ?_, ?_, ?_, ?_, ?_, ?_⟩ <;>
    simp [start_ec2_instances, stop_ec2_instances, start_rds_db, stop_rds_db,
      ec2_asg_desired_capacity, ec2AsgGo, hEc2, hRds, hAsg, hr, hdb, hg]

/-- Witness for C9 (amended) at the empty provider. -/
theorem C9_empty_enumeration_logging_witness :
    (start_ec2_instances pEmpty).1.logs = [LogEntry.error "No EC2 Instance found!"]
    ∧ (stop_ec2_instances pEmpty).1.logs = [LogEntry.error "No EC2 instances found!"]
    ∧ (start_rds_db pEmpty).1.logs = [LogEntry.error "No RDS instances found."]
    ∧ (stop_rds_db pEmpty).1.logs = [LogEntry.error "No RDS instances found."]
    ∧ (ec2_asg_desired_capacity pEmpty 0 0 0).1.logs = []
    ∧ (ec2_asg_desired_capacity pEmpty 0 0 0).1.calls = [AwsCall.describeAutoScalingGroups]
    ∧ (ec2_asg_desired_capacity pEmpty 0 0 0).2 = none :=
  C9_empty_enumeration_logging pEmpty 0 0 0 rfl rfl rfl rfl rfl rfl

/-- C10: `check_ec2_status` is not total: when the first listed instance has
no tag with Key "Name", the method raises an unhandled NameError instead of
returning a table (there is no error handling in this path); and when a
later instance lacks a "Name" tag, its row reuses the name of the
previously processed instance. -/
theorem C10_check_ec2_status_raises_and_reuses_name :
    (check_ec2_status pNoName).2 =
      Except.error (PyError.exn "local variable 'instance_name' referenced before assignment")
    ∧ ∀ (p : Provider) (i1 i2 : Ec2Instance) (n : String),
        p.describeInstancesErr = none →
        p.reservations = [⟨[i1, i2]⟩] →
        lastNameTag none i1.tags = some n →
        (∀ t ∈ i2.tags, t.key ≠ "Name") →
        (check_ec2_status p).2 =
          Except.ok [⟨i1.instanceId, i1.instanceType, n, i1.stateName⟩,
                     ⟨i2.instanceId, i2.instanceType, n, i2.stateName⟩] := by
  constructor
  · rfl
  · intro p i1 i2 n hd hres h1 h2
    unfold check_ec2_status
    rw [hd]
    simp [enumInstances, hres, checkEc2Rows, h1, lastNameTag_no_name _ _ h2]

/-- First concrete instance for the name-reuse scenario: Name tag "web". -/
def ec2a : Ec2Instance := ⟨"i-1", "t2.micro", "running", [⟨"Name", "web"⟩]⟩

/-- Second concrete instance: no "Name" tag at all. -/
def ec2b : Ec2Instance := ⟨"i-2", "t2.micro", "stopped", [⟨"Env", "prod"⟩]⟩

/-- A provider listing `ec2a` then `ec2b` in one reservation. -/
def pReuse : Provider := { reservations := [⟨[ec2a, ec2b]⟩] }

/-- Witness for C10 at `pReuse`: the row of i-2, which has no Name tag,
reuses the name "web" of i-1. -/
theorem C10_check_ec2_status_raises_and_reuses_name_witness :
    (check_ec2_status pReuse).2 =
      Except.ok [⟨ec2a.instanceId, ec2a.instanceType, "web", ec2a.stateName⟩,
                 ⟨ec2b.instanceId, ec2b.instanceType, "web", ec2b.stateName⟩] :=
  C10_check_ec2_status_raises_and_reuses_name.2 pReuse ec2a ec2b "web"
    rfl rfl (by decide) (by decide)
